import Mathlib

/-!
Verification of the rust indexer API against its specification.

The definitions below are a shallow embedding of the repository source:
  * `src/utils.rs` — the fixed-point decimal kernel (`Decimal18`, `d_add`,
    `d_sub`, `d_mul`, `d_div`, `calculate_percentage`, `calculate_market_cap`);
    Rust `i128` values are modelled as `Int` with explicit saturation at the
    `i128` bounds, and Rust integer division (truncation toward zero) is
    modelled by `Int.tdiv`.
  * `src/types/filter.rs` — the range-filter validators and defaults.
  * `src/routes/pulse.rs` — the pulse query builders for the three tables.
  * `src/websocket/mod.rs` and `src/websocket/store.rs` — the socket message
    handler and the subscription registry.
  * `src/websocket/new_pool_event.rs` — the per-pool enricher factory gate.
  * `src/main.rs` — the `pool_inserted` listener task.
  * `src/models/pool.rs` — the `Pool` / `DBPool` conversions.
-/

/-! ## Decimal and math kernel (src/utils.rs)

`Decimal18` is `FixedPoint<i128, U18>`: a raw `i128` interpreted with 18
decimal places.  All arithmetic in the source works on the raw bits. -/

def I128_MAX : Int := 2 ^ 127 - 1

def I128_MIN : Int := -(2 ^ 127)

/-- Clamp an unbounded integer to the `i128` range; Rust saturating ops. -/
def sat128 (x : Int) : Int := max I128_MIN (min I128_MAX x)

def saturating_add (a b : Int) : Int := sat128 (a + b)

def saturating_sub (a b : Int) : Int := sat128 (a - b)

def saturating_mul (a b : Int) : Int := sat128 (a * b)

structure Decimal18 where
  bits : Int
deriving DecidableEq

def Decimal18.from_bits (x : Int) : Decimal18 := ⟨x⟩

def Decimal18.into_bits (a : Decimal18) : Int := a.bits

/-- `SCALE = 1e18` from src/utils.rs line 44. -/
def SCALE : Int := 1000000000000000000

/-- src/utils.rs `round_div_i128`: `if n >= 0 { n.saturating_add(d / 2) / d }
else { n.saturating_sub(d / 2) / d }` with Rust truncating division. -/
def round_div_i128 (n d : Int) : Int :=
  if 0 ≤ n then (saturating_add n (d.tdiv 2)).tdiv d
  else (saturating_sub n (d.tdiv 2)).tdiv d

def d_add (a b : Decimal18) : Decimal18 :=
  Decimal18.from_bits (saturating_add a.into_bits b.into_bits)

def d_sub (a b : Decimal18) : Decimal18 :=
  Decimal18.from_bits (saturating_sub a.into_bits b.into_bits)

def d_mul (a b : Decimal18) : Decimal18 :=
  Decimal18.from_bits (round_div_i128 (saturating_mul a.into_bits b.into_bits) SCALE)

def d_div (a b : Decimal18) : Decimal18 :=
  if b.into_bits = 0 then Decimal18.from_bits 0
  else Decimal18.from_bits (round_div_i128 (saturating_mul a.into_bits SCALE) b.into_bits)

/-- src/utils.rs `calculate_percentage`: zero when either denominator is zero,
else `d_mul (d_div amount scale_factor) (d_div (from_bits 100) token_supply)`. -/
def calculate_percentage (amount scale_factor token_supply : Decimal18) : Decimal18 :=
  if scale_factor = Decimal18.from_bits 0 ∨ token_supply = Decimal18.from_bits 0 then
    Decimal18.from_bits 0
  else
    d_mul (d_div amount scale_factor) (d_div (Decimal18.from_bits 100) token_supply)

def calculate_market_cap (price supply : Decimal18) : Decimal18 := d_mul price supply

/-- Specification-side definition: the integer nearest to `x`, ties rounded
away from zero ("half-away-from-zero rounding" of the spec). -/
def round_half_away_from_zero (x : ℚ) : Int :=
  if 0 ≤ x then ⌊x + 1 / 2⌋ else ⌈x - 1 / 2⌉

/-! ### Rounding analysis for `round_div_i128` (positive divisor) -/

theorem sat128_eq_of_abs_le {x : Int} (h : |x| ≤ I128_MAX) : sat128 x = x := by
  have h2 := abs_le.mp h
  simp only [sat128, I128_MAX, I128_MIN] at *
  omega

theorem tdiv_two_nonneg {d : Int} (hd : 0 < d) : 0 ≤ d.tdiv 2 :=
  Int.tdiv_nonneg (le_of_lt hd) (by norm_num)

theorem tdiv_two_eq_ediv {d : Int} (hd : 0 < d) : d.tdiv 2 = d / 2 :=
  Int.tdiv_eq_ediv (le_of_lt hd) (by norm_num)

/-- Adding half the divisor before flooring realises round-half-up:
`(2 * n + d) / (2 * d) = (n + d / 2) / d` for `0 < d`. -/
theorem add_half_ediv (n d : Int) (hd : 0 < d) :
    (2 * n + d) / (2 * d) = (n + d / 2) / d := by
  have h1 : d * ((n + d / 2) / d) + (n + d / 2) % d = n + d / 2 := Int.ediv_add_emod _ _
  have hr0 : 0 ≤ (n + d / 2) % d := Int.emod_nonneg _ (ne_of_gt hd)
  have hr1 : (n + d / 2) % d < d := Int.emod_lt_of_pos _ hd
  have key : 2 * n + d =
      (2 * ((n + d / 2) % d) + (d - 2 * (d / 2))) + 2 * d * ((n + d / 2) / d) := by
    linear_combination (-2) * h1
  rw [key, Int.add_mul_ediv_left _ _ (by omega), Int.ediv_eq_zero_of_lt (by omega) (by omega),
    zero_add]

/-- `(2 * n + d) / (2 * d)` is the floor of `n / d + 1 / 2` over the rationals. -/
theorem ediv_eq_floor_add_half (n d : Int) (hd : 0 < d) :
    (2 * n + d) / (2 * d) = ⌊(n : ℚ) / (d : ℚ) + 1 / 2⌋ := by
  have h2d : (((2 * d).toNat : ℕ) : ℚ) = ((2 * d : Int) : ℚ) := by
    exact_mod_cast congrArg (fun z : Int => (z : ℚ)) (Int.toNat_of_nonneg (by omega : (0 : Int) ≤ 2 * d))
  have hcast : (n : ℚ) / (d : ℚ) + 1 / 2 = ((2 * n + d : Int) : ℚ) / (((2 * d).toNat : ℕ) : ℚ) := by
    have hdq : ((d : ℚ)) ≠ 0 := Int.cast_ne_zero.mpr (ne_of_gt hd)
    rw [h2d]
    push_cast
    field_simp
    ring
  rw [hcast, Rat.floor_intCast_div_natCast]
  rw [show ((2 * d).toNat : Int) = 2 * d from Int.toNat_of_nonneg (by omega)]

/-- For a positive divisor and no saturation, `round_div_i128` is
half-away-from-zero rounding of the exact quotient. -/
theorem round_div_i128_eq (n d : Int) (hd : 0 < d)
    (hbound : |n| + d.tdiv 2 ≤ I128_MAX) :
    round_div_i128 n d = round_half_away_from_zero ((n : ℚ) / (d : ℚ)) := by
  have hd2n : 0 ≤ d.tdiv 2 := tdiv_two_nonneg hd
  have hd2 : d.tdiv 2 = d / 2 := tdiv_two_eq_ediv hd
  have habs1 : n ≤ |n| := le_abs_self n
  have habs2 : -|n| ≤ n := neg_abs_le n
  have hhalf : 0 ≤ d / 2 := Int.ediv_nonneg (by omega) (by omega)
  have hdq : (0 : ℚ) < (d : ℚ) := by exact_mod_cast hd
  rcases le_or_lt 0 n with hn | hn
  · have hsat : saturating_add n (d.tdiv 2) = n + d / 2 := by
      rw [hd2]
      unfold saturating_add
      exact sat128_eq_of_abs_le (by rw [abs_of_nonneg (by omega)]; omega)
    have hx : (0 : ℚ) ≤ (n : ℚ) / (d : ℚ) :=
      div_nonneg (by exact_mod_cast hn) (le_of_lt hdq)
    rw [round_div_i128, if_pos hn, hsat,
      Int.tdiv_eq_ediv (by omega) (le_of_lt hd),
      ← add_half_ediv n d hd, ediv_eq_floor_add_half n d hd,
      round_half_away_from_zero, if_pos hx]
  · have hsat : saturating_sub n (d.tdiv 2) = n - d / 2 := by
      rw [hd2]
      unfold saturating_sub
      exact sat128_eq_of_abs_le (by rw [abs_of_nonpos (by omega)]; omega)
    have hx : (n : ℚ) / (d : ℚ) < 0 :=
      div_neg_of_neg_of_pos (by exact_mod_cast hn) hdq
    rw [round_div_i128, if_neg (by omega), hsat]
    rw [show n - d / 2 = -(-n + d / 2) by ring, Int.neg_tdiv,
      Int.tdiv_eq_ediv (by omega) (le_of_lt hd),
      ← add_half_ediv (-n) d hd, ediv_eq_floor_add_half (-n) d hd,
      round_half_away_from_zero, if_neg (not_le.mpr hx)]
    rw [show (n : ℚ) / (d : ℚ) - 1 / 2 = -(((-n : Int) : ℚ) / (d : ℚ) + 1 / 2) by push_cast; ring,
      Int.ceil_neg]

set_option maxRecDepth 10000 in
/-- C1: with the argument shapes of the pulse route (raw bits for amount,
scale factor and supply), `calculate_percentage` on
`top10_amount_raw = 150_000_000_000_000`, `scale_factor = 10^6` and
`supply = 1_000_000_000` returns the Q18.18 representation of 15, and 15 is
exactly `((raw_amount / scale_factor) / supply) * 100` over the rationals. -/
theorem calculate_percentage_pulse_example :
    calculate_percentage (Decimal18.from_bits 150000000000000) (Decimal18.from_bits 1000000)
        (Decimal18.from_bits 1000000000) = Decimal18.from_bits (15 * SCALE) ∧
    ((150000000000000 : ℚ) / 1000000 / 1000000000) * 100 = 15 := by
  constructor
  · decide
  · norm_num

set_option maxRecDepth 10000 in
/-- C7 counterexample: for the divisor with bits `-2` and the dividend with
bits `1`, `d_div` returns bits `-499999999999999999`, while half-away-from-zero
rounding of `(1 * SCALE) / (-2)` is `-500000000000000000` (the quotient is
exact, so every rounding agrees); hence `d_div` does not compute
half-away-from-zero rounding on every input. -/
theorem d_div_negative_divisor_counterexample :
    d_div (Decimal18.from_bits 1) (Decimal18.from_bits (-2)) =
      Decimal18.from_bits (-499999999999999999) ∧
    round_half_away_from_zero (((1 * SCALE : Int) : ℚ) / ((-2 : Int) : ℚ)) =
      -500000000000000000 ∧
    (-499999999999999999 : Int) ≠ -500000000000000000 := by
  refine ⟨by decide, ?_, by decide⟩
  norm_num [round_half_away_from_zero, SCALE, Int.ceil_eq_iff, Int.floor_eq_iff]

/-- C7 amended: `d_div` returns zero on a zero divisor; on a divisor with
positive bits, and inputs small enough that the saturating multiplication and
the saturating half-adjustment do not clamp, it equals half-away-from-zero
rounding of `(a.bits * SCALE) / b.bits` (for negative divisor bits the half
adjustment carries the wrong sign, see the counterexample); and
`calculate_percentage` returns zero whenever `scale_factor` or `token_supply`
is zero. -/
theorem d_div_round_half_away (a b : Decimal18) (hb : 0 < b.bits)
    (hbound : |a.bits| * SCALE + b.bits.tdiv 2 ≤ I128_MAX) :
    (∀ x : Decimal18, d_div x (Decimal18.from_bits 0) = Decimal18.from_bits 0) ∧
    (d_div a b).bits = round_half_away_from_zero (((a.bits * SCALE : Int) : ℚ) / (b.bits : ℚ)) ∧
    (∀ amt sup : Decimal18,
      calculate_percentage amt (Decimal18.from_bits 0) sup = Decimal18.from_bits 0) ∧
    (∀ amt sf : Decimal18,
      calculate_percentage amt sf (Decimal18.from_bits 0) = Decimal18.from_bits 0) := by
  refine ⟨fun x => rfl, ?_, fun amt sup => ?_, fun amt sf => ?_⟩
  · have hS : (0 : Int) < SCALE := by norm_num [SCALE]
    have habs : |a.bits * SCALE| = |a.bits| * SCALE := by
      rw [abs_mul, abs_of_pos hS]
    have htd : 0 ≤ b.bits.tdiv 2 := tdiv_two_nonneg hb
    rw [← habs] at hbound
    have hsatmul : saturating_mul a.bits SCALE = a.bits * SCALE := by
      unfold saturating_mul
      exact sat128_eq_of_abs_le (by omega)
    rw [d_div, if_neg (by simp only [Decimal18.into_bits]; omega)]
    show round_div_i128 (saturating_mul a.bits SCALE) b.bits = _
    rw [hsatmul]
    exact round_div_i128_eq _ _ hb hbound
  · rw [calculate_percentage, if_pos (Or.inl rfl)]
  · rw [calculate_percentage, if_pos (Or.inr rfl)]

set_option maxRecDepth 10000 in
/-- C7 amended, witnessed at dividend bits 1 and divisor bits 2. -/
theorem d_div_round_half_away_witness :
    (∀ x : Decimal18, d_div x (Decimal18.from_bits 0) = Decimal18.from_bits 0) ∧
    (d_div (Decimal18.from_bits 1) (Decimal18.from_bits 2)).bits =
      round_half_away_from_zero ((((Decimal18.from_bits 1).bits * SCALE : Int) : ℚ) /
        ((Decimal18.from_bits 2).bits : ℚ)) ∧
    (∀ amt sup : Decimal18,
      calculate_percentage amt (Decimal18.from_bits 0) sup = Decimal18.from_bits 0) ∧
    (∀ amt sf : Decimal18,
      calculate_percentage amt sf (Decimal18.from_bits 0) = Decimal18.from_bits 0) :=
  d_div_round_half_away (Decimal18.from_bits 1) (Decimal18.from_bits 2)
    (by norm_num [Decimal18.from_bits])
    (by norm_num [Decimal18.from_bits, SCALE, I128_MAX, Int.tdiv])

/-! ## Range filters (src/types/filter.rs)

`RangeFilter<T>` with its serde validators.  The `i64`-valued filters are
modelled over `Int`; the `Decimal`-valued filters over `ℚ`. -/

structure RangeFilter (T : Type) where
  min : Option T
  max : Option T
deriving DecidableEq

/-- src/types/filter.rs `validate_range_filter`: fill a missing `max` with the
cap, then reject a `max` above the cap with the given error message. -/
def validate_range_filter {T : Type} [LinearOrder T] (f : RangeFilter T) (max_limit : T)
    (err_msg : String) : Except String (RangeFilter T) :=
  let f2 := if f.max.isNone then { f with max := some max_limit } else f
  match f2.max with
  | some m => if max_limit < m then Except.error err_msg else Except.ok f2
  | none => Except.ok f2

def validate_age_filter (f : RangeFilter Int) : Except String (RangeFilter Int) :=
  validate_range_filter f 1440 "Age max cannot exceed 1440"

def validate_hundred_filter (f : RangeFilter ℚ) : Except String (RangeFilter ℚ) :=
  validate_range_filter f 100 "Bonding curve max cannot exceed 100"

def validate_max_amount_filter (f : RangeFilter Int) : Except String (RangeFilter Int) :=
  validate_range_filter f 1000000000 "Max amount cannot exceed 1000000000"

def default_range_filter {T : Type} (mn mx : T) : RangeFilter T := ⟨some mn, some mx⟩

def default_age_filter : RangeFilter Int := default_range_filter 0 1440

def default_hundred_filter : RangeFilter ℚ := default_range_filter 0 100

def default_max_amount_filter : RangeFilter Int := default_range_filter 0 1000000000

/-- C6: a missing `max` defaults to the cap of the field (1440 for age, 100
for the percentage fields, 1e9 for the count and amount fields); a supplied
`max` above the cap is rejected with the out-of-bounds error; the age filter
accepts `max = 1440` and rejects `max = 1441`. -/
theorem validate_range_filter_caps (mn : Option Int) (mq : Option ℚ)
    (m am : Int) (q : ℚ) (hm : 1440 < m) (hq : 100 < q) (ham : 1000000000 < am) :
    validate_age_filter ⟨mn, none⟩ = Except.ok ⟨mn, some 1440⟩ ∧
    validate_hundred_filter ⟨mq, none⟩ = Except.ok ⟨mq, some 100⟩ ∧
    validate_max_amount_filter ⟨mn, none⟩ = Except.ok ⟨mn, some 1000000000⟩ ∧
    validate_age_filter ⟨mn, some m⟩ = Except.error "Age max cannot exceed 1440" ∧
    validate_hundred_filter ⟨mq, some q⟩ =
      Except.error "Bonding curve max cannot exceed 100" ∧
    validate_max_amount_filter ⟨mn, some am⟩ =
      Except.error "Max amount cannot exceed 1000000000" ∧
    validate_age_filter ⟨mn, some 1440⟩ = Except.ok ⟨mn, some 1440⟩ ∧
    validate_age_filter ⟨mn, some 1441⟩ = Except.error "Age max cannot exceed 1440" := by
  refine ⟨?_, ?_, ?_, ?_, ?_, ?_, ?_, ?_⟩ <;>
    simp [validate_age_filter, validate_hundred_filter, validate_max_amount_filter,
      validate_range_filter, hm, hq, ham, not_lt_of_le]

/-- C6 witnessed at `m = 1441`, `q = 101`, `am = 1000000001`, `min` absent. -/
theorem validate_range_filter_caps_witness :
    validate_age_filter ⟨none, none⟩ = Except.ok ⟨none, some 1440⟩ ∧
    validate_hundred_filter ⟨none, none⟩ = Except.ok ⟨none, some 100⟩ ∧
    validate_max_amount_filter ⟨none, none⟩ = Except.ok ⟨none, some 1000000000⟩ ∧
    validate_age_filter ⟨none, some 1441⟩ = Except.error "Age max cannot exceed 1440" ∧
    validate_hundred_filter ⟨none, some 101⟩ =
      Except.error "Bonding curve max cannot exceed 100" ∧
    validate_max_amount_filter ⟨none, some 1000000001⟩ =
      Except.error "Max amount cannot exceed 1000000000" ∧
    validate_age_filter ⟨none, some 1440⟩ = Except.ok ⟨none, some 1440⟩ ∧
    validate_age_filter ⟨none, some 1441⟩ = Except.error "Age max cannot exceed 1440" :=
  validate_range_filter_caps none none 1441 1000000001 101
    (by norm_num) (by norm_num) (by norm_num)

/-! ## Fan-out gateway (src/websocket/mod.rs, src/websocket/store.rs)

The subscription registry `SUBSCRIPTIONS` is a map from socket id to `Bool`;
`DashMap::insert` returns the previous value when the key was present.  The
`on_connect` handler registers callbacks for the `join` and `message` events
only; no disconnect callback is registered anywhere in the source. -/

inductive Room where
  | NewPair
  | UpdatePulse
deriving DecidableEq

structure SubMessage where
  method : String
  sub_type : Option String
deriving DecidableEq

inductive WsOut where
  | pong
  | joinRoom (room : String)
  | subscriptionResponse
  | errorEvt (data : String)
  | snapshotTask
deriving DecidableEq

abbrev SubsRegistry := List (String × Bool)

def subs_lookup (st : SubsRegistry) (k : String) : Option Bool :=
  (st.find? (fun p => p.1 == k)).map (fun p => p.2)

/-- `DashMap::insert`: store the value and return the previous one, if any. -/
def subs_insert (st : SubsRegistry) (k : String) (v : Bool) : Option Bool × SubsRegistry :=
  match subs_lookup st k with
  | some old => (some old, st.map (fun p => if p.1 == k then (k, v) else p))
  | none => (none, (k, v) :: st)

def already_subscribed_data : String :=
  "Already subscribed: \x7b\"type\":\"update_pulse_v2\"\x7d"

/-- src/websocket/mod.rs lines 51-137, the `message` handler: answer pings;
on `subscribe` for `update_pulse_v2`, insert into the registry, emit the
already-subscribed error if the entry existed, otherwise join the room, emit
`subscriptionResponse` and (when the clickhouse service is stored) spawn the
snapshot task. -/
def handle_message (hasClickhouse : Bool) (id : String) (msg : SubMessage)
    (st : SubsRegistry) : SubsRegistry × List WsOut :=
  if msg.method = "ping" then (st, [WsOut.pong])
  else if msg.method = "subscribe" then
    match msg.sub_type with
    | none => (st, [])
    | some t =>
      if t = "update_pulse_v2" then
        let r := subs_insert st id true
        if r.1.isSome then (r.2, [WsOut.errorEvt already_subscribed_data])
        else
          (r.2, [WsOut.joinRoom "update_pulse_v2", WsOut.subscriptionResponse] ++
            (if hasClickhouse then [WsOut.snapshotTask] else []))
      else (st, [])
  else (st, [])

/-- src/websocket/mod.rs lines 37-49, the `join` handler: `NewPair` joins the
room; the join call in the `UpdatePulse` arm is commented out. -/
def on_join : Room → List WsOut
  | Room.NewPair => [WsOut.joinRoom "new-pair"]
  | Room.UpdatePulse => []

inductive ClientEvent where
  | joinEvt (room : Room)
  | message (msg : SubMessage)
  | disconnect
deriving DecidableEq

/-- One client event against the handlers `on_connect` registers.  A
disconnect runs no handler (none is registered), so it leaves the
subscription registry unchanged. -/
def gateway_step (hasClickhouse : Bool) (id : String) (st : SubsRegistry) :
    ClientEvent → SubsRegistry × List WsOut
  | ClientEvent.joinEvt r => (st, on_join r)
  | ClientEvent.message m => handle_message hasClickhouse id m st
  | ClientEvent.disconnect => (st, [])

def gateway_run (hasClickhouse : Bool) (id : String) (st : SubsRegistry) :
    List ClientEvent → SubsRegistry
  | [] => st
  | e :: es => gateway_run hasClickhouse id (gateway_step hasClickhouse id st e).1 es

def subscribe_msg : SubMessage := ⟨"subscribe", some "update_pulse_v2"⟩

/-- The registry state and emissions after the first subscribe of a fresh
connection `s1`. -/
def first_subscribe (hasClickhouse : Bool) : SubsRegistry × List WsOut :=
  handle_message hasClickhouse "s1" subscribe_msg []

/-- The registry state and emissions after `s1` repeats the identical
subscribe. -/
def second_subscribe (hasClickhouse : Bool) : SubsRegistry × List WsOut :=
  handle_message hasClickhouse "s1" subscribe_msg (first_subscribe hasClickhouse).1

/-- C5: a connection sending the same `update_pulse_v2` subscribe twice gets
exactly one `subscriptionResponse` (first message) and exactly one error
whose data contains "Already subscribed" (second message); the room is not
joined a second time and no snapshot task is spawned for the second
message. -/
theorem double_subscribe_dedup (hasCH : Bool) :
    (first_subscribe hasCH).2.count WsOut.subscriptionResponse = 1 ∧
    (second_subscribe hasCH).2 = [WsOut.errorEvt already_subscribed_data] ∧
    "Already subscribed".data <:+: already_subscribed_data.data ∧
    ((first_subscribe hasCH).2 ++ (second_subscribe hasCH).2).count
      WsOut.subscriptionResponse = 1 ∧
    ((first_subscribe hasCH).2 ++ (second_subscribe hasCH).2).count
      (WsOut.errorEvt already_subscribed_data) = 1 ∧
    ((first_subscribe hasCH).2 ++ (second_subscribe hasCH).2).count
      (WsOut.joinRoom "update_pulse_v2") = 1 ∧
    (second_subscribe hasCH).2.count WsOut.snapshotTask = 0 := by
  cases hasCH <;> exact ⟨by decide, by decide, by decide, by decide, by decide, by decide,
    by decide⟩

/-- C9 counterexample: after the trace subscribe-then-disconnect the registry
still holds the entry for socket `s1`, while the claim says a disconnect
removes all of the connection entries. -/
theorem disconnect_keeps_entry_counterexample :
    subs_lookup (gateway_run true "s1" []
      [ClientEvent.message subscribe_msg, ClientEvent.disconnect]) "s1" = some true ∧
    some true ≠ (none : Option Bool) := by
  exact ⟨by decide, by decide⟩

/-- C9 amended: a disconnect runs no handler and removes nothing from the
subscription registry (the entries of a dead connection persist); a
reconnecting client is nevertheless able to subscribe without an
already-subscribed error because it connects under a fresh socket id that has
no registry entry. -/
theorem disconnect_leaves_registry (hasCH : Bool) (id id2 : String) (st : SubsRegistry) :
    (gateway_step hasCH id st ClientEvent.disconnect).1 = st ∧
    (gateway_step hasCH id st ClientEvent.disconnect).2 = [] ∧
    (subs_lookup st id2 = none →
      (handle_message hasCH id2 subscribe_msg st).2.count WsOut.subscriptionResponse = 1) := by
  refine ⟨rfl, rfl, fun hlook => ?_⟩
  simp only [handle_message, subscribe_msg]
  norm_num
  simp only [subs_insert, hlook]
  cases hasCH <;> simp [List.count_cons, List.count_append]

/-! ## Event ingestion (src/main.rs) and per-pool enricher
(src/websocket/new_pool_event.rs)

The `pool_inserted` listener task in src/main.rs parses the notification
payload, builds a `DBPool`, runs the enrichment query and emits one
`new-pair` event; timestamps are copied into the output but never compared
against the current time.  The standalone enricher `on_new_pool_event`
rejects every factory other than `"PumpFun"` before issuing its query. -/

/-- The fields of the parsed `pool_inserted` payload that the listener
consults or forwards (`PoolEvent` in src/services/db.rs). -/
structure PoolEventParsed where
  pool_address : String
  factory : String
  created_at : Int
deriving DecidableEq

inductive IngestAction where
  | runEnrichQuery (pool_address : String)
  | emitNewPair (pool_address : String)
deriving DecidableEq

/-- src/main.rs lines 64-272: on a parsed `pool_inserted` notification the
task builds the `DBPool`, runs the enrichment query and emits `new-pair`;
there is no factory check and no comparison of `created_at` with the current
time. -/
def pool_inserted_step (e : PoolEventParsed) : List IngestAction :=
  [IngestAction.runEnrichQuery e.pool_address, IngestAction.emitNewPair e.pool_address]

/-- The listener silently skips payloads that fail to parse
(src/main.rs lines 273-278). -/
def ingest_pool_notification (payload : Option PoolEventParsed) : List IngestAction :=
  match payload with
  | some e => pool_inserted_step e
  | none => []

/-- C3 counterexample: a `pool_created` notification 48 hours old (payload
`created_at` = now - 172800 with now = 1000000) is older than now - 24h, yet
the ingestion loop still runs the enrichment query and emits a `new-pair`
event for it; nothing is dropped. -/
theorem stale_pool_event_emitted_counterexample :
    (1000000 - 172800 : Int) < 1000000 - 86400 ∧
    ingest_pool_notification (some ⟨"P", "PumpFun", 1000000 - 172800⟩) =
      [IngestAction.runEnrichQuery "P", IngestAction.emitNewPair "P"] ∧
    IngestAction.emitNewPair "P" ∈
      ingest_pool_notification (some ⟨"P", "PumpFun", 1000000 - 172800⟩) := by
  exact ⟨by decide, rfl, by decide⟩

/-- C3 amended: the ingestion loop applies no recency gate at all; every
successfully parsed `pool_created` notification is enriched and broadcast as
`new-pair`, whatever its `created_at`, and the emitted actions do not depend
on `created_at` (the only 24-hour bounds live inside the pulse queries). -/
theorem ingestion_has_no_recency_gate (e : PoolEventParsed) (t : Int) :
    IngestAction.emitNewPair e.pool_address ∈ ingest_pool_notification (some e) ∧
    IngestAction.runEnrichQuery e.pool_address ∈ ingest_pool_notification (some e) ∧
    ingest_pool_notification (some { e with created_at := t }) =
      ingest_pool_notification (some e) ∧
    ingest_pool_notification none = [] := by
  exact ⟨by simp [ingest_pool_notification, pool_inserted_step],
    by simp [ingest_pool_notification, pool_inserted_step], rfl, rfl⟩

/-- The factory gate of `on_new_pool_event` (src/websocket/new_pool_event.rs
lines 50-52): any factory other than `"PumpFun"` returns an error before the
enrichment query is issued; for `"PumpFun"` the enrichment query runs. -/
def on_new_pool_event_actions (factory pool_address : String) :
    Except String (List IngestAction) :=
  if factory ≠ "PumpFun" then Except.error "factory is not PumpFun"
  else Except.ok [IngestAction.runEnrichQuery pool_address]

/-- C4 counterexample: a pool event with factory `"PumpSwap"` is rejected by
the enricher with the error "factory is not PumpFun" — it is not enriched,
contrary to the claim that PumpSwap pools are accepted. -/
theorem pumpswap_rejected_counterexample :
    on_new_pool_event_actions "PumpSwap" "P" = Except.error "factory is not PumpFun" ∧
    Except.error "factory is not PumpFun" ≠
      Except.ok [IngestAction.runEnrichQuery "P"] := by
  exact ⟨rfl, by simp⟩

/-- C4 amended: the enricher accepts only factory `"PumpFun"`; every other
factory — PumpSwap and Unknown included — is rejected with the string error
"factory is not PumpFun" before the enrichment query is issued, so such an
event produces no query and no broadcast. -/
theorem enricher_factory_gate (factory pool_address : String) :
    (factory ≠ "PumpFun" →
      on_new_pool_event_actions factory pool_address =
        Except.error "factory is not PumpFun") ∧
    on_new_pool_event_actions "PumpFun" pool_address =
      Except.ok [IngestAction.runEnrichQuery pool_address] ∧
    on_new_pool_event_actions "Unknown" pool_address =
      Except.error "factory is not PumpFun" := by
  refine ⟨fun h => ?_, by simp [on_new_pool_event_actions], by simp [on_new_pool_event_actions]⟩
  simp [on_new_pool_event_actions, h]

/-! ## Pool model conversions (src/models/pool.rs)

Byte vectors are lists of bytes; `Pubkey` and `Signature` carry their length
invariants (32 and 64 bytes).  `Decimal`, timestamp and JSON metadata fields
pass through both conversions unchanged and are modelled by `Int`,
`Int` and `Option String` payloads.  The `u64`/`i64` slot casts are modelled
with explicit arithmetic modulo `2^64`. -/

def Pubkey := { l : List Nat // l.length = 32 }

instance : DecidableEq Pubkey := Subtype.instDecidableEq

def Pubkey.try_from (v : List Nat) : Except String Pubkey :=
  if h : v.length = 32 then Except.ok ⟨v, h⟩ else Except.error "invalid length"

def Pubkey.to_bytes (p : Pubkey) : List Nat := p.val

def Signature := { l : List Nat // l.length = 64 }

instance : DecidableEq Signature := Subtype.instDecidableEq

def Signature.try_from (v : List Nat) : Except String Signature :=
  if h : v.length = 64 then Except.ok ⟨v, h⟩ else Except.error "invalid length"

def Signature.as_ref (s : Signature) : List Nat := s.val

/-- Rust `as u64` on an `i64` value: reinterpret modulo `2^64`. -/
def u64_of_i64 (x : Int) : Int := x % (2 ^ 64)

/-- Rust `as i64` on a `u64` value: reinterpret modulo `2^64` into
`[-2^63, 2^63)`. -/
def i64_of_u64 (x : Int) : Int := if x < 2 ^ 63 then x else x - 2 ^ 64

/-- In-memory pool (`Pool` in src/models/pool.rs). -/
structure Pool where
  pool_address : Pubkey
  factory : String
  pre_factory : Option String
  reversed : Bool
  token_base_address : Pubkey
  token_quote_address : Pubkey
  pool_base_address : Pubkey
  pool_quote_address : Pubkey
  curve_percentage : Option Int
  initial_token_base_reserve : Int
  initial_token_quote_reserve : Int
  slot : Int
  creator : Pubkey
  hash : Signature
  metadata : Option String
  created_at : Int
  updated_at : Int
deriving DecidableEq

/-- Wire pool row (`DBPool` in src/models/pool.rs). -/
structure DBPool where
  pool_address : List Nat
  factory : String
  pre_factory : String
  reversed : Bool
  token_base_address : List Nat
  token_quote_address : List Nat
  pool_base_address : List Nat
  pool_quote_address : List Nat
  curve_percentage : Option Int
  initial_token_base_reserve : Int
  initial_token_quote_reserve : Int
  slot : Int
  creator : List Nat
  hash : List Nat
  metadata : Option String
  created_at : Int
  updated_at : Int
deriving DecidableEq

/-- `impl From<Pool> for DBPool` (src/models/pool.rs lines 75-97). -/
def dbpool_of_pool (p : Pool) : DBPool :=
  { pool_address := p.pool_address.to_bytes
    factory := p.factory
    pre_factory := p.pre_factory.getD ""
    reversed := p.reversed
    token_base_address := p.token_base_address.to_bytes
    token_quote_address := p.token_quote_address.to_bytes
    pool_base_address := p.pool_base_address.to_bytes
    pool_quote_address := p.pool_quote_address.to_bytes
    curve_percentage := p.curve_percentage
    initial_token_base_reserve := p.initial_token_base_reserve
    initial_token_quote_reserve := p.initial_token_quote_reserve
    slot := i64_of_u64 p.slot
    creator := p.creator.to_bytes
    hash := p.hash.as_ref
    metadata := p.metadata
    created_at := p.created_at
    updated_at := p.updated_at }

def except_with_msg {α : Type} (e : Except String α) (msg : String) : Except String α :=
  match e with
  | Except.ok a => Except.ok a
  | Except.error _ => Except.error msg

/-- `impl TryFrom<DBPool> for Pool` (src/models/pool.rs lines 99-128). -/
def pool_try_from_dbpool (db : DBPool) : Except String Pool := do
  let pa ← except_with_msg (Pubkey.try_from db.pool_address) "parse pool address"
  let tba ← except_with_msg (Pubkey.try_from db.token_base_address) "parse token base address"
  let tqa ← except_with_msg (Pubkey.try_from db.token_quote_address) "parse token quote address"
  let pba ← except_with_msg (Pubkey.try_from db.pool_base_address) "parse pool base address"
  let pqa ← except_with_msg (Pubkey.try_from db.pool_quote_address) "parse pool quote address"
  let cr ← except_with_msg (Pubkey.try_from db.creator) "parse creator"
  let hs ← except_with_msg (Signature.try_from db.hash) "parse hash"
  pure
    { pool_address := pa
      factory := db.factory
      pre_factory := some db.pre_factory
      reversed := db.reversed
      token_base_address := tba
      token_quote_address := tqa
      pool_base_address := pba
      pool_quote_address := pqa
      curve_percentage := db.curve_percentage
      initial_token_base_reserve := db.initial_token_base_reserve
      initial_token_quote_reserve := db.initial_token_quote_reserve
      slot := u64_of_i64 db.slot
      creator := cr
      hash := hs
      metadata := db.metadata
      created_at := db.created_at
      updated_at := db.updated_at }

/-- C8: for every well-formed wire row (32-byte keys, 64-byte signature,
non-negative slot) the wire-to-memory conversion succeeds and converting back
to wire reproduces the original row in every field. -/
theorem dbpool_roundtrip (db : DBPool)
    (h1 : db.pool_address.length = 32) (h2 : db.token_base_address.length = 32)
    (h3 : db.token_quote_address.length = 32) (h4 : db.pool_base_address.length = 32)
    (h5 : db.pool_quote_address.length = 32) (h6 : db.creator.length = 32)
    (h7 : db.hash.length = 64) (h8 : 0 ≤ db.slot) (h9 : db.slot < 2 ^ 63) :
    Except.map dbpool_of_pool (pool_try_from_dbpool db) = Except.ok db := by
  have hs : i64_of_u64 (u64_of_i64 db.slot) = db.slot := by
    unfold u64_of_i64 i64_of_u64
    rw [Int.emod_eq_of_lt h8 (by omega)]
    omega
  have hred : Except.map dbpool_of_pool (pool_try_from_dbpool db) =
      Except.ok { db with slot := i64_of_u64 (u64_of_i64 db.slot) } := by
    simp only [pool_try_from_dbpool, except_with_msg, Pubkey.try_from, Signature.try_from,
      dif_pos h1, dif_pos h2, dif_pos h3, dif_pos h4, dif_pos h5, dif_pos h6, dif_pos h7]
    rfl
  rw [hred, hs]

def sample_dbpool : DBPool :=
  { pool_address := List.replicate 32 1
    factory := "PumpFun"
    pre_factory := ""
    reversed := false
    token_base_address := List.replicate 32 2
    token_quote_address := List.replicate 32 3
    pool_base_address := List.replicate 32 4
    pool_quote_address := List.replicate 32 5
    curve_percentage := some 37
    initial_token_base_reserve := 1000
    initial_token_quote_reserve := 2000
    slot := 123456789
    creator := List.replicate 32 6
    hash := List.replicate 64 7
    metadata := none
    created_at := 1700000000
    updated_at := 1700000001 }

/-- C8 witnessed on a concrete 32/64-byte row with slot 123456789. -/
theorem dbpool_roundtrip_witness :
    Except.map dbpool_of_pool (pool_try_from_dbpool sample_dbpool) = Except.ok sample_dbpool :=
  dbpool_roundtrip sample_dbpool (by decide) (by decide) (by decide) (by decide) (by decide)
    (by decide) (by decide) (by decide) (by decide)

/-! ## Pulse query builders (src/routes/pulse.rs)

Each branch of `pulse` builds its query by a sequence of `push_str` calls,
modelled here as the concatenation of a list of segments.  The static SQL
text below is copied verbatim from the raw strings of the source.  The
`Decimal`-valued filter fields are modelled at integer values, which the Rust
`Display` implementation renders identically.  In the `NewPairs` branch the
source computes `where_conditions` but the `push_str` of the WHERE clause is
commented out (src/routes/pulse.rs lines 510-514), so those conditions never
reach the query; the `FinalStretch` and `Migrated` branches do append them.
The `Migrated` branch has no bonding-curve conditions. -/

def new_pairs_header : String :=
  "\nWITH all_pools AS (\n  SELECT\n    p.pool_address,\n    p.creator,\n    p.token_base_address,\n    p.token_quote_address,\n    p.pool_base_address,\n    p.pool_quote_address,\n    p.factory,\n    p.created_at,\n    p.initial_token_base_reserve,\n    p.initial_token_quote_reserve,\n    p.curve_percentage\n  FROM pools p\n WHERE p.created_at >= now() - INTERVAL 24 HOUR\n AND p.curve_percentage < 50\n\n"

def new_pairs_middle : String :=
  "\n          ),\n\ntok AS (\n  SELECT\n    t.mint_address,\n    t.name, t.symbol, t.image, t.decimals,\n    t.website, t.twitter, t.telegram,\n    t.supply AS token_supply,\n    pow(10, t.decimals) AS scale_factor\n  FROM tokens t\n),\nlatest_swap AS (\n  SELECT\n    r.pool_address,\n    s.base_reserve AS latest_base_reserve,\n    s.quote_reserve AS latest_quote_reserve,\n    s.price_sol AS latest_price_sol\n  FROM all_pools r\n  LEFT JOIN (\n    SELECT\n      pool_address,\n      argMax(base_reserve, created_at) AS base_reserve,\n      argMax(quote_reserve, created_at) AS quote_reserve,\n      argMax(price_sol, created_at) AS price_sol\n    FROM swaps\n    GROUP BY pool_address\n  ) s ON s.pool_address = r.pool_address\n),\nholders_base AS (\n  SELECT\n    r.pool_address,\n    COUNT(DISTINCT a.owner) AS num_holders\n  FROM all_pools r\n  JOIN accounts a\n    ON a.mint = r.token_base_address\n   AND a.owner <> r.pool_address\n   AND a.owner <> r.pool_base_address\n   AND a.owner <> r.pool_quote_address\n  GROUP BY r.pool_address\n),\ntop10_holders AS (\n  SELECT pool_address, SUM(amount) AS top10_amount_raw\n  FROM (\n    SELECT r.pool_address, a.amount,\n           ROW_NUMBER() OVER (PARTITION BY r.pool_address ORDER BY a.amount DESC) AS rn\n    FROM all_pools r\n    JOIN accounts a\n      ON a.mint = r.token_base_address\n     AND a.owner <> r.pool_address\n     AND a.owner <> r.pool_base_address\n     AND a.owner <> r.pool_quote_address\n  ) x\n  WHERE rn <= 10\n  GROUP BY pool_address\n),\ndev_hold AS (\n  SELECT\n    r.pool_address,\n    coalesce(max(a.amount), 0) AS dev_amount_raw\n  FROM all_pools r\n  LEFT JOIN accounts a\n    ON a.mint  = r.token_base_address\n   AND a.owner = r.creator\n   AND a.owner <> r.pool_address\n  GROUP BY r.pool_address\n),\nsnipers_holds AS (\n  SELECT s.pool_address,\n         COALESCE(SUM(s.base_amount), 0) AS snipers_amount_raw\n  FROM swaps s\n  JOIN all_pools r ON r.pool_address = s.pool_address\n  WHERE s.swap_type = 'BUY'\n    AND s.creator <> r.pool_address\n    AND s.creator <> r.pool_base_address\n    AND s.creator <> r.pool_quote_address\n  GROUP BY s.pool_address\n),\ndev_wallet_funding AS (\n  SELECT\n    r.pool_address,\n    ts.source,\n    ts.destination,\n    ts.amount,\n    ts.hash,\n    ts.earliest_transfer_at AS created_at\n  FROM all_pools r\n  LEFT JOIN (\n    SELECT\n      destination,\n      argMin(source, created_at) AS source,\n      argMin(amount, created_at) AS amount,\n      argMin(hash, created_at) AS hash,\n      min(created_at) AS earliest_transfer_at\n    FROM transfer_sol\n    GROUP BY destination\n  ) ts ON ts.destination = r.creator\n),\nmigration AS (\n  SELECT r.creator,\n         countIf(p2.pre_factory = 'PumpFun' AND p2.factory = 'PumpSwap') AS migration_count\n  FROM all_pools r\n  LEFT JOIN pools p2 ON p2.creator = r.creator\n  GROUP BY r.creator\n),\nvol_24h AS (\n  SELECT s.pool_address,\n         SUM(s.buy_volume + s.sell_volume) AS volume_sol,\n         CAST(SUM(s.buy_count) AS Int64) AS num_buys,\n         CAST(SUM(s.sell_count) AS Int64) AS num_sells,\n         CAST(SUM(s.buy_count + s.sell_count) AS Int64) AS num_txns\n  FROM pool_report_5m s\n  JOIN all_pools r ON r.pool_address = s.pool_address\n  WHERE  s.bucket_start < now() - INTERVAL 5 MINUTE\n  GROUP BY s.pool_address\n)\nSELECT\n  r.pool_address AS pool_address,\n  r.creator AS creator,\n  r.token_base_address AS token_base_address,\n  r.token_quote_address AS token_quote_address,\n  r.factory AS factory,\n  r.created_at AS created_at,\n  r.initial_token_base_reserve AS initial_token_base_reserve,\n  r.initial_token_quote_reserve AS initial_token_quote_reserve,\n  coalesce(r.curve_percentage, 0) AS bonding_curve_percent,\n\n  -- token meta\n  t.name AS name,\n  t.symbol AS symbol,\n  t.image AS image,\n  t.decimals AS decimals,\n  t.website AS website,\n  t.twitter AS twitter,\n  t.telegram AS telegram,\n  t.mint_address AS mint_address,\n  t.token_supply AS token_supply,\n  t.scale_factor AS scale_factor,\n\n  -- liquidity/price (fallback to initial if no swaps yet)\n  coalesce(ls.latest_quote_reserve, r.initial_token_quote_reserve) AS liquidity_sol,\n  coalesce(ls.latest_base_reserve,  r.initial_token_base_reserve)  AS liquidity_token,\n  coalesce(ls.latest_price_sol, 0)                                 AS current_price_sol,\n\n  -- holders\n  coalesce(h.num_holders, 0)                                       AS num_holders,\n\n  -- raw amounts for calculation in Rust\n  coalesce(th.top10_amount_raw, 0)                                 AS top10_amount_raw,\n  coalesce(d.dev_amount_raw, 0)                                    AS dev_amount_raw,\n  coalesce(sh.snipers_amount_raw, 0)                               AS snipers_amount_raw,\n\n  -- migrations\n  coalesce(m.migration_count, 0)                                   AS migration_count,\n\n  coalesce(v.volume_sol, 0) AS volume_sol,\n  coalesce(v.num_txns,   0) AS num_txns,\n  coalesce(v.num_buys,   0) AS num_buys,\n  coalesce(v.num_sells,  0) AS num_sells,\n\n  -- dev wallet funding (first transfer)\n  nullIf(df.source, '')       AS funding_wallet_address,\n  nullIf(df.destination, '')  AS wallet_address,\n  if(df.source = '', NULL, df.amount) AS amount_sol,\n  nullIf(df.hash, '')         AS transfer_hash,\n  if(df.source = '', NULL, df.created_at) AS funded_at\n\nFROM all_pools r\nLEFT JOIN vol_24h v ON v.pool_address = r.pool_address\nLEFT JOIN tok              t  ON t.mint_address = r.token_base_address\nLEFT JOIN latest_swap      ls ON ls.pool_address = r.pool_address\nLEFT JOIN holders_base     h  ON h.pool_address  = r.pool_address\nLEFT JOIN top10_holders    th ON th.pool_address = r.pool_address\nLEFT JOIN dev_hold         d  ON d.pool_address  = r.pool_address\nLEFT JOIN snipers_holds    sh ON sh.pool_address = r.pool_address\nLEFT JOIN dev_wallet_funding df ON df.pool_address = r.pool_address\nLEFT JOIN migration        m  ON m.creator       = r.creator\n          "

def new_pairs_footer : String :=
  "\nORDER BY created_at DESC\nLIMIT 10\n"

def final_stretch_header : String :=
  "\nWITH all_pools AS (\n  SELECT\n    p.pool_address,\n    p.creator,\n    p.token_base_address,\n    p.token_quote_address,\n    p.pool_base_address,\n    p.pool_quote_address,\n    p.factory,\n    p.created_at,\n    p.initial_token_base_reserve,\n    p.initial_token_quote_reserve,\n    p.curve_percentage\n  FROM pools p\n WHERE p.created_at >= now() - INTERVAL 24 HOUR\n   AND p.curve_percentage < 100\n"

def final_stretch_middle : String :=
  "\n          ),\n\ntok AS (\n  SELECT\n    t.mint_address,\n    t.name, t.symbol, t.image, t.decimals,\n    t.website, t.twitter, t.telegram,\n    t.supply AS token_supply,\n    pow(10, t.decimals) AS scale_factor\n  FROM tokens t\n),\nlatest_swap AS (\n  SELECT\n    r.pool_address,\n    s.base_reserve AS latest_base_reserve,\n    s.quote_reserve AS latest_quote_reserve,\n    s.price_sol AS latest_price_sol\n  FROM all_pools r\n  LEFT JOIN (\n    SELECT\n      pool_address,\n      argMax(base_reserve, created_at) AS base_reserve,\n      argMax(quote_reserve, created_at) AS quote_reserve,\n      argMax(price_sol, created_at) AS price_sol\n    FROM swaps\n    GROUP BY pool_address\n  ) s ON s.pool_address = r.pool_address\n),\nholders_base AS (\n  SELECT\n    r.pool_address,\n    COUNT(DISTINCT a.owner) AS num_holders\n  FROM all_pools r\n  JOIN accounts a\n    ON a.mint = r.token_base_address\n   AND a.owner <> r.pool_address\n   AND a.owner <> r.pool_base_address\n   AND a.owner <> r.pool_quote_address\n  GROUP BY r.pool_address\n),\ntop10_holders AS (\n  SELECT pool_address, SUM(amount) AS top10_amount_raw\n  FROM (\n    SELECT r.pool_address, a.amount,\n           ROW_NUMBER() OVER (PARTITION BY r.pool_address ORDER BY a.amount DESC) AS rn\n    FROM all_pools r\n    JOIN accounts a\n      ON a.mint = r.token_base_address\n     AND a.owner <> r.pool_address\n     AND a.owner <> r.pool_base_address\n     AND a.owner <> r.pool_quote_address\n  ) x\n  WHERE rn <= 10\n  GROUP BY pool_address\n),\ndev_hold AS (\n  SELECT\n    r.pool_address,\n    coalesce(max(a.amount), 0) AS dev_amount_raw\n  FROM all_pools r\n  LEFT JOIN accounts a\n    ON a.mint  = r.token_base_address\n   AND a.owner = r.creator\n   AND a.owner <> r.pool_address\n  GROUP BY r.pool_address\n),\nsnipers_holds AS (\n  SELECT s.pool_address,\n         COALESCE(SUM(s.base_amount), 0) AS snipers_amount_raw\n  FROM swaps s\n  JOIN all_pools r ON r.pool_address = s.pool_address\n  WHERE s.swap_type = 'BUY'\n    AND s.creator <> r.pool_address\n    AND s.creator <> r.pool_base_address\n    AND s.creator <> r.pool_quote_address\n  GROUP BY s.pool_address\n),\ndev_wallet_funding AS (\n  SELECT\n    r.pool_address,\n    ts.source,\n    ts.destination,\n    ts.amount,\n    ts.hash,\n    ts.earliest_transfer_at AS created_at\n  FROM all_pools r\n  LEFT JOIN (\n    SELECT\n      destination,\n      argMin(source, created_at) AS source,\n      argMin(amount, created_at) AS amount,\n      argMin(hash, created_at) AS hash,\n      min(created_at) AS earliest_transfer_at\n    FROM transfer_sol\n    GROUP BY destination\n  ) ts ON ts.destination = r.creator\n),\nmigration AS (\n  SELECT r.creator,\n         countIf(p2.pre_factory = 'PumpFun' AND p2.factory = 'PumpSwap') AS migration_count\n  FROM all_pools r\n  LEFT JOIN pools p2 ON p2.creator = r.creator\n  GROUP BY r.creator\n),\n\nvol_24h AS (\n  SELECT s.pool_address,\n         SUM(s.buy_volume + s.sell_volume) AS volume_sol,\n         CAST(SUM(s.buy_count) AS Int64) AS num_buys,\n         CAST(SUM(s.sell_count) AS Int64) AS num_sells,\n         CAST(SUM(s.buy_count + s.sell_count) AS Int64) AS num_txns\n  FROM pool_report_5m s\n  JOIN all_pools r ON r.pool_address = s.pool_address\n  WHERE  s.bucket_start < now() - INTERVAL 5 MINUTE\n  GROUP BY s.pool_address\n)\nSELECT\n  r.pool_address AS pool_address,\n  r.creator AS creator,\n  r.token_base_address AS token_base_address,\n  r.token_quote_address AS token_quote_address,\n  r.factory AS factory,\n  r.created_at AS created_at,\n  r.initial_token_base_reserve AS initial_token_base_reserve,\n  r.initial_token_quote_reserve AS initial_token_quote_reserve,\n  coalesce(r.curve_percentage, 0) AS bonding_curve_percent,\n\n  -- token meta\n  t.name AS name,\n  t.symbol AS symbol,\n  t.image AS image,\n  t.decimals AS decimals,\n  t.website AS website,\n  t.twitter AS twitter,\n  t.telegram AS telegram,\n  t.mint_address AS mint_address,\n  t.token_supply AS token_supply,\n  t.scale_factor AS scale_factor,\n\n  -- liquidity/price (fallback to initial if no swaps yet)\n  coalesce(ls.latest_quote_reserve, r.initial_token_quote_reserve) AS liquidity_sol,\n  coalesce(ls.latest_base_reserve,  r.initial_token_base_reserve)  AS liquidity_token,\n  coalesce(ls.latest_price_sol, 0)                                 AS current_price_sol,\n\n  -- holders\n  coalesce(h.num_holders, 0)                                       AS num_holders,\n\n  -- raw amounts for calculation in Rust\n  coalesce(th.top10_amount_raw, 0)                                 AS top10_amount_raw,\n  coalesce(d.dev_amount_raw, 0)                                    AS dev_amount_raw,\n  coalesce(sh.snipers_amount_raw, 0)                               AS snipers_amount_raw,\n\n  -- migrations\n  coalesce(m.migration_count, 0)                                   AS migration_count,\n\n  coalesce(v.volume_sol, 0) AS volume_sol,\n  coalesce(v.num_txns,   0) AS num_txns,\n  coalesce(v.num_buys,   0) AS num_buys,\n  coalesce(v.num_sells,  0) AS num_sells,\n\n  -- dev wallet funding (first transfer)\n  nullIf(df.source, '')       AS funding_wallet_address,\n  nullIf(df.destination, '')  AS wallet_address,\n  if(df.source = '', NULL, df.amount) AS amount_sol,\n  nullIf(df.hash, '')         AS transfer_hash,\n  if(df.source = '', NULL, df.created_at) AS funded_at\n\nFROM all_pools r\nLEFT JOIN vol_24h v ON v.pool_address = r.pool_address\nLEFT JOIN tok              t  ON t.mint_address = r.token_base_address\nLEFT JOIN latest_swap      ls ON ls.pool_address = r.pool_address\nLEFT JOIN holders_base     h  ON h.pool_address  = r.pool_address\nLEFT JOIN top10_holders    th ON th.pool_address = r.pool_address\nLEFT JOIN dev_hold         d  ON d.pool_address  = r.pool_address\nLEFT JOIN snipers_holds    sh ON sh.pool_address = r.pool_address\nLEFT JOIN dev_wallet_funding df ON df.pool_address = r.pool_address\nLEFT JOIN migration        m  ON m.creator       = r.creator\n          "

def final_stretch_footer : String :=
  "\nORDER BY bonding_curve_percent DESC\nLIMIT 10\n"

def migrated_header : String :=
  "\nWITH all_pools AS (\n  SELECT\n    p.pool_address,\n    p.creator,\n    p.token_base_address,\n    p.token_quote_address,\n    p.pool_base_address,\n    p.pool_quote_address,\n    p.factory,\n    p.created_at,\n    p.initial_token_base_reserve,\n    p.initial_token_quote_reserve,\n    p.curve_percentage\n  FROM pools p\n  WHERE p.created_at >= now() - INTERVAL 24 HOUR\n    AND isNotNull(p.pre_factory)\n    AND p.pre_factory <> ''\n    AND p.factory <> ''"

def migrated_middle : String :=
  "\n          ),\n         tok AS (\n  SELECT\n    t.mint_address,\n    t.name, t.symbol, t.image, t.decimals,\n    t.website, t.twitter, t.telegram,\n    t.supply AS token_supply,\n    pow(10, t.decimals) AS scale_factor\n  FROM tokens t\n),\nlatest_swap AS (\n  SELECT\n    r.pool_address,\n    s.base_reserve AS latest_base_reserve,\n    s.quote_reserve AS latest_quote_reserve,\n    s.price_sol AS latest_price_sol\n  FROM all_pools r\n  LEFT JOIN (\n    SELECT\n      pool_address,\n      argMax(base_reserve, created_at) AS base_reserve,\n      argMax(quote_reserve, created_at) AS quote_reserve,\n      argMax(price_sol, created_at) AS price_sol\n    FROM swaps\n    GROUP BY pool_address\n  ) s ON s.pool_address = r.pool_address\n),\nholders_base AS (\n  SELECT\n    r.pool_address,\n    COUNT(DISTINCT a.owner) AS num_holders\n  FROM all_pools r\n  JOIN accounts a\n    ON a.mint = r.token_base_address\n   AND a.owner <> r.pool_address\n   AND a.owner <> r.pool_base_address\n   AND a.owner <> r.pool_quote_address\n  GROUP BY r.pool_address\n),\ntop10_holders AS (\n  SELECT pool_address, SUM(amount) AS top10_amount_raw\n  FROM (\n    SELECT r.pool_address, a.amount,\n           ROW_NUMBER() OVER (PARTITION BY r.pool_address ORDER BY a.amount DESC) AS rn\n    FROM all_pools r\n    JOIN accounts a\n      ON a.mint = r.token_base_address\n     AND a.owner <> r.pool_address\n     AND a.owner <> r.pool_base_address\n     AND a.owner <> r.pool_quote_address\n  ) x\n  WHERE rn <= 10\n  GROUP BY pool_address\n),\ndev_hold AS (\n  SELECT\n    r.pool_address,\n    coalesce(max(a.amount), 0) AS dev_amount_raw\n  FROM all_pools r\n  LEFT JOIN accounts a\n    ON a.mint  = r.token_base_address\n   AND a.owner = r.creator\n   AND a.owner <> r.pool_address\n  GROUP BY r.pool_address\n),\nsnipers_holds AS (\n  SELECT s.pool_address,\n         COALESCE(SUM(s.base_amount), 0) AS snipers_amount_raw\n  FROM swaps s\n  JOIN all_pools r ON r.pool_address = s.pool_address\n  WHERE s.swap_type = 'BUY'\n    AND s.creator <> r.pool_address\n    AND s.creator <> r.pool_base_address\n    AND s.creator <> r.pool_quote_address\n  GROUP BY s.pool_address\n),\ndev_wallet_funding AS (\n  SELECT\n    r.pool_address,\n    ts.source,\n    ts.destination,\n    ts.amount,\n    ts.hash,\n    ts.earliest_transfer_at AS created_at\n  FROM all_pools r\n  LEFT JOIN (\n    SELECT\n      destination,\n      argMin(source, created_at) AS source,\n      argMin(amount, created_at) AS amount,\n      argMin(hash, created_at) AS hash,\n      min(created_at) AS earliest_transfer_at\n    FROM transfer_sol\n    GROUP BY destination\n  ) ts ON ts.destination = r.creator\n),\nmigration AS (\n  SELECT r.creator,\n         countIf(p2.pre_factory = 'PumpFun' AND p2.factory = 'PumpSwap') AS migration_count\n  FROM all_pools r\n  LEFT JOIN pools p2 ON p2.creator = r.creator\n  GROUP BY r.creator\n),\n\nvol_24h AS (\n  SELECT s.pool_address,\n         SUM(s.buy_volume + s.sell_volume) AS volume_sol,\n         CAST(SUM(s.buy_count) AS Int64) AS num_buys,\n         CAST(SUM(s.sell_count) AS Int64) AS num_sells,\n         CAST(SUM(s.buy_count + s.sell_count) AS Int64) AS num_txns\n  FROM pool_report_5m s\n  JOIN all_pools r ON r.pool_address = s.pool_address\n  WHERE  s.bucket_start < now() - INTERVAL 5 MINUTE\n  GROUP BY s.pool_address\n)\nSELECT\n  r.pool_address AS pool_address,\n  r.creator AS creator,\n  r.token_base_address AS token_base_address,\n  r.token_quote_address AS token_quote_address,\n  r.factory AS factory,\n  r.created_at AS created_at,\n  r.initial_token_base_reserve AS initial_token_base_reserve,\n  r.initial_token_quote_reserve AS initial_token_quote_reserve,\n  coalesce(r.curve_percentage, 0) AS bonding_curve_percent,\n\n  -- token meta\n  t.name AS name,\n  t.symbol AS symbol,\n  t.image AS image,\n  t.decimals AS decimals,\n  t.website AS website,\n  t.twitter AS twitter,\n  t.telegram AS telegram,\n  t.mint_address AS mint_address,\n  t.token_supply AS token_supply,\n  t.scale_factor AS scale_factor,\n\n  -- liquidity/price (fallback to initial if no swaps yet)\n  coalesce(ls.latest_quote_reserve, r.initial_token_quote_reserve) AS liquidity_sol,\n  coalesce(ls.latest_base_reserve,  r.initial_token_base_reserve)  AS liquidity_token,\n  coalesce(ls.latest_price_sol, 0)                                 AS current_price_sol,\n\n  -- holders\n  coalesce(h.num_holders, 0)                                       AS num_holders,\n\n  -- raw amounts for calculation in Rust\n  coalesce(th.top10_amount_raw, 0)                                 AS top10_amount_raw,\n  coalesce(d.dev_amount_raw, 0)                                    AS dev_amount_raw,\n  coalesce(sh.snipers_amount_raw, 0)                               AS snipers_amount_raw,\n\n  -- migrations\n  coalesce(m.migration_count, 0)                                   AS migration_count,\n\n  coalesce(v.volume_sol, 0) AS volume_sol,\n  coalesce(v.num_txns,   0) AS num_txns,\n  coalesce(v.num_buys,   0) AS num_buys,\n  coalesce(v.num_sells,  0) AS num_sells,\n\n  -- dev wallet funding (first transfer)\n  nullIf(df.source, '')       AS funding_wallet_address,\n  nullIf(df.destination, '')  AS wallet_address,\n  if(df.source = '', NULL, df.amount) AS amount_sol,\n  nullIf(df.hash, '')         AS transfer_hash,\n  if(df.source = '', NULL, df.created_at) AS funded_at\n\nFROM all_pools r\nLEFT JOIN vol_24h v ON v.pool_address = r.pool_address\nLEFT JOIN tok              t  ON t.mint_address = r.token_base_address\nLEFT JOIN latest_swap      ls ON ls.pool_address = r.pool_address\nLEFT JOIN holders_base     h  ON h.pool_address  = r.pool_address\nLEFT JOIN top10_holders    th ON th.pool_address = r.pool_address\nLEFT JOIN dev_hold         d  ON d.pool_address  = r.pool_address\nLEFT JOIN snipers_holds    sh ON sh.pool_address = r.pool_address\nLEFT JOIN dev_wallet_funding df ON df.pool_address = r.pool_address\nLEFT JOIN migration        m  ON m.creator       = r.creator\n          "

def migrated_footer : String :=
  "\nORDER BY created_at DESC\nLIMIT 10\n"

structure FactoryFilters where
  pump_fun : Bool
  pump_swap : Bool
deriving DecidableEq

structure Filters where
  factories : FactoryFilters
  search_keywords : List String
  exclude_keywords : List String
  age : RangeFilter Int
  top10_holders : RangeFilter Int
  dev_holding : RangeFilter Int
  snipers_holding : RangeFilter Int
  holders : RangeFilter Int
  bonding_curve : RangeFilter Int
  liquidity : RangeFilter Int
  volume : RangeFilter Int
  market_cap : RangeFilter Int
  txns : RangeFilter Int
  num_buys : RangeFilter Int
  num_sells : RangeFilter Int
  num_migrations : RangeFilter Int
  twitter : Bool
  website : Bool
  telegram : Bool
  at_least_one_social : Bool
deriving DecidableEq

/-- One pushed condition per supplied bound. -/
def opt_cond {T : Type} (o : Option T) (render : T → String) : List String :=
  match o with
  | some v => [render v]
  | none => []

/-- The factory conditions pushed for the chosen factory flags
(src/routes/pulse.rs lines 142-148 and the analogous blocks). -/
def factory_conditions (f : Filters) : List String :=
  (if f.factories.pump_fun then ["p.factory = 'PumpFun'"] else []) ++
  (if f.factories.pump_swap then ["p.factory = 'PumpSwap'"] else [])

/-- The age conditions appended directly into the `all_pools` CTE
(src/routes/pulse.rs lines 127-140 and the analogous blocks). -/
def age_segments (f : Filters) : List String :=
  opt_cond f.age.min
    (fun v => " AND p.created_at <= now() - INTERVAL " ++ toString v ++ " MINUTE") ++
  opt_cond f.age.max
    (fun v => " AND p.created_at >= now() - INTERVAL " ++ toString v ++ " MINUTE")

def factory_segment (f : Filters) : List String :=
  if (factory_conditions f).isEmpty then []
  else [" AND (" ++ String.intercalate " OR " (factory_conditions f) ++ ")"]

/-- The `where_conditions` vector built after the big CTE text
(src/routes/pulse.rs lines 336-508, 829-1002, 1321-1486); `include_bonding`
is true for the NewPairs and FinalStretch branches, false for Migrated. -/
def where_conditions (include_bonding : Bool) (f : Filters) : List String :=
  opt_cond f.top10_holders.min (fun v =>
    "((coalesce(th.top10_amount_raw,0) / nullif(t.scale_factor,0)) * 100.0) / nullif(t.token_supply,0) >= "
      ++ toString v) ++
  opt_cond f.top10_holders.max (fun v =>
    "((coalesce(th.top10_amount_raw,0) / nullif(t.scale_factor,0)) * 100.0) / nullif(t.token_supply,0) <= "
      ++ toString v) ++
  opt_cond f.dev_holding.min (fun v =>
    "((coalesce(d.dev_amount_raw,0) / nullif(t.scale_factor,0)) * 100.0) / nullif(t.token_supply,0) >= "
      ++ toString v) ++
  opt_cond f.dev_holding.max (fun v =>
    "((coalesce(d.dev_amount_raw,0) / nullif(t.scale_factor,0)) * 100.0) / nullif(t.token_supply,0) <= "
      ++ toString v) ++
  opt_cond f.snipers_holding.min (fun v =>
    "((coalesce(sh.snipers_amount_raw,0) / nullif(t.scale_factor,0)) * 100.0) / nullif(t.token_supply,0) >= "
      ++ toString v) ++
  opt_cond f.snipers_holding.max (fun v =>
    "((coalesce(sh.snipers_amount_raw,0) / nullif(t.scale_factor,0)) * 100.0) / nullif(t.token_supply,0) <= "
      ++ toString v) ++
  opt_cond f.holders.min (fun v => "coalesce(h.num_holders, 0) >= " ++ toString v) ++
  opt_cond f.holders.max (fun v => "coalesce(h.num_holders, 0) <= " ++ toString v) ++
  (if include_bonding then
    opt_cond f.bonding_curve.min (fun v => "r.curve_percentage >= " ++ toString v) ++
    opt_cond f.bonding_curve.max (fun v => "r.curve_percentage <= " ++ toString v)
  else []) ++
  opt_cond f.liquidity.min (fun v =>
    "coalesce(ls.latest_quote_reserve, r.initial_token_quote_reserve) >= " ++ toString v) ++
  opt_cond f.liquidity.max (fun v =>
    "coalesce(ls.latest_quote_reserve, r.initial_token_quote_reserve) <= " ++ toString v) ++
  opt_cond f.volume.min (fun v => "coalesce(v.volume_sol, 0) >= " ++ toString v) ++
  opt_cond f.volume.max (fun v => "coalesce(v.volume_sol, 0) <= " ++ toString v) ++
  opt_cond f.market_cap.min (fun v =>
    "(coalesce(ls.latest_price_sol, 0) * t.token_supply) >= " ++ toString v) ++
  opt_cond f.market_cap.max (fun v =>
    "(coalesce(ls.latest_price_sol, 0) * t.token_supply) <= " ++ toString v) ++
  opt_cond f.txns.min (fun v => "coalesce(v.num_txns, 0) >= " ++ toString v) ++
  opt_cond f.txns.max (fun v => "coalesce(v.num_txns, 0) <= " ++ toString v) ++
  opt_cond f.num_buys.min (fun v => "coalesce(v.num_buys, 0) >= " ++ toString v) ++
  opt_cond f.num_buys.max (fun v => "coalesce(v.num_buys, 0) <= " ++ toString v) ++
  opt_cond f.num_sells.min (fun v => "coalesce(v.num_sells, 0) >= " ++ toString v) ++
  opt_cond f.num_sells.max (fun v => "coalesce(v.num_sells, 0) <= " ++ toString v) ++
  opt_cond f.num_migrations.min (fun v => "coalesce(m.migration_count, 0) >= " ++ toString v) ++
  opt_cond f.num_migrations.max (fun v => "coalesce(m.migration_count, 0) <= " ++ toString v) ++
  (if f.twitter then ["t.twitter IS NOT NULL AND t.twitter != ''"] else []) ++
  (if f.website then ["t.website IS NOT NULL AND t.website != ''"] else []) ++
  (if f.telegram then ["t.telegram IS NOT NULL AND t.telegram != ''"] else []) ++
  (if f.at_least_one_social then
    ["(t.twitter IS NOT NULL AND t.twitter != '') OR (t.website IS NOT NULL AND t.website != '') OR (t.telegram IS NOT NULL AND t.telegram != '')"]
  else []) ++
  (if f.search_keywords.isEmpty then [] else
    ["(" ++ String.intercalate " OR " (f.search_keywords.map (fun kw =>
      "(LOWER(t.name) LIKE LOWER('%" ++ kw ++ "%') OR LOWER(t.symbol) LIKE LOWER('%" ++ kw
        ++ "%'))")) ++ ")"]) ++
  (if f.exclude_keywords.isEmpty then [] else
    ["(" ++ String.intercalate " AND " (f.exclude_keywords.map (fun kw =>
      "(LOWER(t.name) NOT LIKE LOWER('%" ++ kw ++ "%') AND LOWER(t.symbol) NOT LIKE LOWER('%"
        ++ kw ++ "%'))")) ++ ")"])

def where_segment (include_bonding : Bool) (f : Filters) : List String :=
  if (where_conditions include_bonding f).isEmpty then []
  else [" WHERE " ++ String.intercalate " AND " (where_conditions include_bonding f)]

/-- Sequential `push_str` calls on one string. -/
def concat_segments : List String → String
  | [] => ""
  | s :: rest => s ++ concat_segments rest

/-- NewPairs branch: header, age and factory conditions, the CTE body, then
directly the ORDER BY footer — the computed `where_conditions` are dropped
because their `push_str` is commented out in the source. -/
def build_new_pairs_query (f : Filters) : String :=
  concat_segments ([new_pairs_header] ++ age_segments f ++ factory_segment f ++
    [new_pairs_middle, new_pairs_footer])

/-- FinalStretch branch: as NewPairs but the WHERE clause is appended. -/
def build_final_stretch_query (f : Filters) : String :=
  concat_segments ([final_stretch_header] ++ age_segments f ++ factory_segment f ++
    [final_stretch_middle] ++ where_segment true f ++ [final_stretch_footer])

/-- Migrated branch: WHERE clause appended, no bonding-curve conditions. -/
def build_migrated_query (f : Filters) : String :=
  concat_segments ([migrated_header] ++ age_segments f ++ factory_segment f ++
    [migrated_middle] ++ where_segment false f ++ [migrated_footer])

theorem infix_concat_of_mem {s seg : String} {l : List String} (hseg : seg ∈ l)
    (h : s.data <:+: seg.data) : s.data <:+: (concat_segments l).data := by
  induction l with
  | nil => exact absurd hseg (List.not_mem_nil _)
  | cons a t ih =>
    rcases List.mem_cons.mp hseg with rfl | hmem
    · rcases h with ⟨u, v, huv⟩
      exact ⟨u, v ++ (concat_segments t).data, by simp [concat_segments, ← huv]⟩
    · rcases ih hmem with ⟨u, v, huv⟩
      exact ⟨a.data ++ u, v, by simp [concat_segments, ← huv]⟩

/-- The fixed snapshot filter built in the subscribe handler
(src/websocket/mod.rs lines 93-114): `pump_fun: true, pump_swap: false`,
empty keyword lists, full-range bounds, all social toggles off, and
`table: NewPairs`. -/
def snapshot_filters : Filters :=
  { factories := ⟨true, false⟩
    search_keywords := []
    exclude_keywords := []
    age := ⟨some 0, some 1440⟩
    top10_holders := ⟨some 0, some 100⟩
    dev_holding := ⟨some 0, some 100⟩
    snipers_holding := ⟨some 0, some 100⟩
    holders := ⟨some 0, some 1000000000⟩
    bonding_curve := ⟨some 0, some 100⟩
    liquidity := ⟨some 0, some 1000000000⟩
    volume := ⟨some 0, some 1000000000⟩
    market_cap := ⟨some 0, some 1000000000⟩
    txns := ⟨some 0, some 1000000000⟩
    num_buys := ⟨some 0, some 1000000000⟩
    num_sells := ⟨some 0, some 1000000000⟩
    num_migrations := ⟨some 0, some 1000000000⟩
    twitter := false
    website := false
    telegram := false
    at_least_one_social := false }

/-- C10: the snapshot filter has `pump_fun = true` and `pump_swap = false`,
so the only factory condition generated is `p.factory = 'PumpFun'`; that
condition is carried by the pool CTE of the built NewPairs snapshot query,
and no PumpSwap condition is generated, so the pool CTE admits no PumpSwap
pool. -/
theorem snapshot_query_pumpfun_only :
    snapshot_filters.factories.pump_fun = true ∧
    snapshot_filters.factories.pump_swap = false ∧
    factory_conditions snapshot_filters = ["p.factory = 'PumpFun'"] ∧
    (" AND (p.factory = 'PumpFun')").data <:+:
      (build_new_pairs_query snapshot_filters).data ∧
    "p.factory = 'PumpSwap'" ∉ factory_conditions snapshot_filters := by
  refine ⟨rfl, rfl, rfl, ?_, by decide⟩
  have hmem : (" AND (p.factory = 'PumpFun')") ∈
      ([new_pairs_header] ++ age_segments snapshot_filters ++
        factory_segment snapshot_filters ++ [new_pairs_middle, new_pairs_footer]) := by
    have hseg : factory_segment snapshot_filters = [" AND (p.factory = 'PumpFun')"] := rfl
    simp [hseg]
  exact infix_concat_of_mem hmem (List.infix_refl _)

/-- A NewPairs request whose only supplied non-age bound is `holders.min = 5`
(everything else absent, every toggle off). -/
def holders_only_filters : Filters :=
  { factories := ⟨false, false⟩
    search_keywords := []
    exclude_keywords := []
    age := ⟨none, none⟩
    top10_holders := ⟨none, none⟩
    dev_holding := ⟨none, none⟩
    snipers_holding := ⟨none, none⟩
    holders := ⟨some 5, none⟩
    bonding_curve := ⟨none, none⟩
    liquidity := ⟨none, none⟩
    volume := ⟨none, none⟩
    market_cap := ⟨none, none⟩
    txns := ⟨none, none⟩
    num_buys := ⟨none, none⟩
    num_sells := ⟨none, none⟩
    num_migrations := ⟨none, none⟩
    twitter := false
    website := false
    telegram := false
    at_least_one_social := false }

/-- C2: the NewPairs branch computes the holders predicate but never appends
it — the built NewPairs query is independent of every non-age, non-factory
filter — while the FinalStretch and Migrated branches do carry the
predicate. -/
theorem new_pairs_where_clause_dropped :
    "coalesce(h.num_holders, 0) >= 5" ∈ where_conditions true holders_only_filters ∧
    (∀ g : Filters, g.age = holders_only_filters.age →
      g.factories = holders_only_filters.factories →
      build_new_pairs_query g = build_new_pairs_query holders_only_filters) ∧
    ("coalesce(h.num_holders, 0) >= 5").data <:+:
      (build_final_stretch_query holders_only_filters).data ∧
    ("coalesce(h.num_holders, 0) >= 5").data <:+:
      (build_migrated_query holders_only_filters).data := by
  have hwc : ∀ b : Bool, where_conditions b holders_only_filters =
      ["coalesce(h.num_holders, 0) >= 5"] := by
    intro b
    cases b <;> rfl
  refine ⟨by rw [hwc]; exact List.mem_singleton.mpr rfl, ?_, ?_, ?_⟩
  · intro g hage hfac
    unfold build_new_pairs_query
    rw [show age_segments g = age_segments holders_only_filters from by
        simp [age_segments, hage],
      show factory_segment g = factory_segment holders_only_filters from by
        simp [factory_segment, factory_conditions, hfac]]
  · have hseg : where_segment true holders_only_filters =
        [" WHERE coalesce(h.num_holders, 0) >= 5"] := by
      simp only [where_segment, hwc]
      rfl
    have hm : (" WHERE coalesce(h.num_holders, 0) >= 5") ∈
        ([final_stretch_header] ++ age_segments holders_only_filters ++
          factory_segment holders_only_filters ++ [final_stretch_middle] ++
          where_segment true holders_only_filters ++ [final_stretch_footer]) := by
      simp [hseg]
    exact infix_concat_of_mem hm (by decide)
  · have hseg : where_segment false holders_only_filters =
        [" WHERE coalesce(h.num_holders, 0) >= 5"] := by
      simp only [where_segment, hwc]
      rfl
    have hm : (" WHERE coalesce(h.num_holders, 0) >= 5") ∈
        ([migrated_header] ++ age_segments holders_only_filters ++
          factory_segment holders_only_filters ++ [migrated_middle] ++
          where_segment false holders_only_filters ++ [migrated_footer]) := by
      simp [hseg]
    exact infix_concat_of_mem hm (by decide)
